import Mathlib

/-!
Shallow embedding of the connection-gateway core of the
astrbot_plugin_minecraft_adapter repository.

The embedding follows the Python source file by file:

* `gateway_registry.py` — `ServerConnection`, the process-wide registry
  (`set_connection` / `get_connection` / `list_server_ids`);
* `gateway_platform_adapter.py` — the inbound websocket handler: the
  authentication gate, connection replacement (eviction), the disconnect
  cleanup in the `finally` block, and `_handle_text` dispatch;
* `api.py` — the five request-issuing calls and their pending-table
  lifecycle;
* `websocket_client.py` — the outbound client's message handling and
  reconnection loop;
* `gateway_event.py` — `MinecraftGatewayEvent.send`.

Python dictionaries are modelled as association lists with unique-key
(overwrite) insertion; `asyncio.Future` one-shot handles are modelled by
`FutState`; object identity of websocket handles (`id(ws)`, Python `is`)
is modelled by a `Nat` tag.
-/

namespace MCGateway

/-! ### Association-list model of Python dict -/

/-- Lookup, modelling `d.get(k)`. -/
def pget {α : Type} : List (String × α) → String → Option α
  | [], _ => none
  | (k, v) :: rest, key => if k = key then some v else pget rest key

/-- Remove a key, modelling `d.pop(k)` / `d.pop(k, None)` on a dict whose
keys are unique. -/
def perase {α : Type} (m : List (String × α)) (key : String) : List (String × α) :=
  m.filter (fun e => e.1 ≠ key)

/-- Overwrite insertion, modelling `d[k] = v`. -/
def pinsert {α : Type} (m : List (String × α)) (key : String) (v : α) : List (String × α) :=
  perase m key ++ [(key, v)]

/-- The key list, modelling `list(d.keys())` (up to order). -/
def pkeys {α : Type} (m : List (String × α)) : List String :=
  m.map (fun e => e.1)

@[simp] theorem pget_nil {α : Type} (k : String) : pget ([] : List (String × α)) k = none := rfl

@[simp] theorem pget_cons {α : Type} (k key : String) (v : α) (rest : List (String × α)) :
    pget ((k, v) :: rest) key = if k = key then some v else pget rest key := rfl

theorem pget_perase_self {α : Type} (m : List (String × α)) (k : String) :
    pget (perase m k) k = none := by
  induction m with
  | nil => rfl
  | cons e rest ih =>
    obtain ⟨k0, v0⟩ := e
    by_cases h : k0 = k
    · simp [perase, h] at ih ⊢
      exact ih
    · simp [perase, h] at ih ⊢
      simpa [pget, h] using ih

theorem pget_append {α : Type} (m1 m2 : List (String × α)) (k : String) :
    pget (m1 ++ m2) k = ((pget m1 k).rec (pget m2 k) (fun v => some v) : Option α) := by
  induction m1 with
  | nil => rfl
  | cons e rest ih =>
    obtain ⟨k0, v0⟩ := e
    by_cases h : k0 = k <;> simp [pget, h, ih]

theorem pget_pinsert_self {α : Type} (m : List (String × α)) (k : String) (v : α) :
    pget (pinsert m k v) k = some v := by
  unfold pinsert
  rw [pget_append, pget_perase_self]
  simp [pget]

theorem perase_perase {α : Type} (m : List (String × α)) (k : String) :
    perase (perase m k) k = perase m k := by
  unfold perase
  rw [List.filter_filter]
  simp

theorem perase_cons {α : Type} (k0 k : String) (v0 : α) (rest : List (String × α)) :
    perase ((k0, v0) :: rest) k =
      if k0 = k then perase rest k else (k0, v0) :: perase rest k := by
  by_cases h : k0 = k <;> simp [perase, List.filter_cons, h]

theorem pget_perase_ne {α : Type} (m : List (String × α)) (k k2 : String) (hne : k2 ≠ k) :
    pget (perase m k) k2 = pget m k2 := by
  induction m with
  | nil => rfl
  | cons e rest ih =>
    obtain ⟨k0, v0⟩ := e
    rw [perase_cons]
    by_cases h : k0 = k
    · rw [if_pos h, ih]
      have hk : ¬ (k0 = k2) := by rw [h]; exact fun h2 => hne h2.symm
      simp [pget, hk]
    · rw [if_neg h]
      by_cases h2 : k0 = k2
      · simp [pget, h2]
      · simp [pget, h2, ih]

/-! ### JSON values and future states -/

/-- A JSON value, the payload currency of the wire protocol. -/
inductive Json where
  | null
  | str (s : String)
  | num (n : Int)
  | bool (b : Bool)
  | obj (fields : List (String × Json))
  | arr (items : List Json)

/-- State of an `asyncio.Future` one-shot handle stored in a connection's
`pending_by_reply_to` table. `cancelled` covers cancellation by
`asyncio.wait_for` on timeout and cancellation of the calling task. -/
inductive FutState where
  | pending
  | done (result : Json)
  | cancelled

/-- `fut.done()`: true once the future is fulfilled or cancelled. -/
def futDone : FutState → Bool
  | .pending => false
  | .done _ => true
  | .cancelled => true

/-- `fut.set_result(p)`: raises `InvalidStateError` when the future is
already done, otherwise fulfills it. -/
def setResult (f : FutState) (p : Json) : Except String FutState :=
  if futDone f then Except.error "InvalidStateError" else Except.ok (FutState.done p)

/-! ### Data model (`gateway_registry.py`) -/

/-- `ServerConnection` from `gateway_registry.py`. The websocket transport
handle is identified by a `Nat` tag standing for Python object identity. -/
structure ServerConnection where
  server_id : String
  websocket : Nat
  last_seen_ms : Nat
  pending_by_reply_to : List (String × FutState) := []

/-- The process-wide registry `_by_server_id`. -/
def Registry : Type := List (String × ServerConnection)

/-- `set_connection(server_id, conn)`: `None` removes the slot, otherwise
the slot is overwritten. -/
def set_connection (reg : Registry) (server_id : String) (conn : Option ServerConnection) :
    Registry :=
  match conn with
  | none => perase reg server_id
  | some c => pinsert reg server_id c

/-- `get_connection(server_id)`. -/
def get_connection (reg : Registry) (server_id : String) : Option ServerConnection :=
  pget reg server_id

/-- `list_server_ids()`. -/
def list_server_ids (reg : Registry) : List String :=
  pkeys reg

/-! ### Wire envelopes -/

/-- `target` routing hint of an outbound envelope. -/
inductive Target where
  | broadcast
  | player (playerUuid : String) (playerName : Option String)

/-- A parsed inbound message dict; optional fields are absent keys. -/
structure Envelope where
  type : String
  id : Option String := none
  timestamp : Option Nat := none
  payload : Option Json := none
  replyTo : Option String := none
  target : Option Target := none

/-- An envelope sent by the gateway (`ws.send_json` argument). -/
structure OutEnvelope where
  type : String
  id : String
  timestamp : Nat
  payload : Json
  replyTo : Option String := none
  target : Option Target := none

/-- Observable effects of `_handle_text` besides mutating its connection. -/
inductive OutAction where
  /-- `conn.websocket.send_json(...)`. -/
  | sendJson (e : OutEnvelope)
  /-- A matching pending future was fulfilled with this payload. -/
  | fulfilled (replyTo : String) (payload : Json)
  /-- `self._commit_chat_event` committed a chat event with this content. -/
  | commitChat (content : String)
  /-- `self._commit_bind_code_event` committed a bind-code event. -/
  | commitBindCode (code : String) (playerUuid : String)

/-- Python `str.strip()`: drop leading and trailing whitespace. Defined by
structural recursion on the character list so it evaluates on concrete
strings. -/
def pstrip (s : String) : String :=
  String.mk (((s.data.dropWhile Char.isWhitespace).reverse.dropWhile
    Char.isWhitespace).reverse)

/-- Python truthiness for an optional string: `s or fallback`. -/
def strOr (s : Option String) (fallback : String) : String :=
  match s with
  | none => fallback
  | some v => if v = "" then fallback else v

/-- `payload.get(k)` as a string, with Python `or ""` defaulting. -/
def jstrField (p : Json) (k : String) : String :=
  match p with
  | .obj fields =>
    match pget fields k with
    | some (.str s) => s
    | _ => ""
  | _ => ""

/-! ### `_handle_text` dispatch (`gateway_platform_adapter.py` lines 317-358) -/

/-- `_handle_text(conn, raw)`. `data = none` models `json.loads` failure
(logged and dropped). `now` is `_now_ms()`; `freshId` is the `str(uuid4())`
fallback for a missing heartbeat id. The `Except` error is the
`InvalidStateError` that `fut.set_result` would raise on a done future. -/
def handleText (conn : ServerConnection) (data : Option Envelope) (now : Nat)
    (freshId : String) : Except String (ServerConnection × List OutAction) :=
  let conn1 : ServerConnection := { conn with last_seen_ms := now }
  match data with
  | none => Except.ok (conn1, [])
  | some d =>
    if d.type = "HEARTBEAT" then
      let mid := strOr d.id freshId
      Except.ok (conn1, [OutAction.sendJson
        { type := "HEARTBEAT_ACK", id := mid, timestamp := now, payload := Json.obj [] }])
    else if d.type = "BIND_CONFIRM_RESPONSE" then
      let payload := match d.payload with
        | some p => p
        | none => Json.obj []
      match d.replyTo with
      | none => Except.ok (conn1, [])
      | some r =>
        if r = "" then Except.ok (conn1, [])
        else
          match pget conn1.pending_by_reply_to r with
          | none => Except.ok (conn1, [])
          | some fut =>
            let conn2 : ServerConnection :=
              { conn1 with pending_by_reply_to := perase conn1.pending_by_reply_to r }
            if futDone fut then Except.ok (conn2, [])
            else
              match setResult fut payload with
              | Except.ok _ => Except.ok (conn2, [OutAction.fulfilled r payload])
              | Except.error e => Except.error e
    else if d.type = "MESSAGE_FORWARD" then
      let payload := match d.payload with
        | some p => p
        | none => Json.obj []
      let content := jstrField payload "content"
      Except.ok (conn1, if content = "" then [] else [OutAction.commitChat content])
    else if d.type = "BIND_CODE_ISSUED" then
      let payload := match d.payload with
        | some p => p
        | none => Json.obj []
      let code := jstrField payload "code"
      let playerUuid := jstrField payload "playerUuid"
      Except.ok (conn1,
        if code = "" ∨ playerUuid = "" then [] else [OutAction.commitBindCode code playerUuid])
    else
      Except.ok (conn1, [])

/-! ### Whitelist construction (`MinecraftGatewayPlatformAdapter.__init__`) -/

/-- A raw config value for `server_ids` / `tokens` (may be a list, a single
string, or absent). -/
inductive ConfigVal where
  | cnone
  | cstr (s : String)
  | clist (l : List String)

/-- `_as_list` from `gateway_platform_adapter.py`: `None` becomes `[]`, a
list is kept, a string is stripped and wrapped (empty string becomes `[]`). -/
def _as_list : ConfigVal → List String
  | .cnone => []
  | .clist l => l
  | .cstr s => if pstrip s = "" then [] else [pstrip s]

/-- The `self._auth` whitelist: `server_ids` and `tokens` zipped by index,
each entry stripped, and kept only when both are non-empty. -/
def buildAuth (server_ids tokens : ConfigVal) : List (String × String) :=
  ((_as_list server_ids).zip (_as_list tokens)).foldl
    (fun auth e =>
      let sid := pstrip e.1
      let tok := pstrip e.2
      if sid ≠ "" ∧ tok ≠ "" then pinsert auth sid tok else auth)
    []

/-! ### Inbound handshake gate (`ws_handler` lines 140-153) -/

/-- Outcome of the pre-registration checks of `ws_handler`. -/
inductive GateResult where
  /-- `404 not found`: request path differs from the configured path. -/
  | notFound
  /-- `401 missing serverId/token`. -/
  | missingCreds
  /-- `403 invalid token`. -/
  | invalidToken
  /-- All checks passed; the handler proceeds to register this identity. -/
  | accepted (server_id : String) (token : String)

/-- The path / credential / whitelist checks a new transport attempt must
pass before any envelope exchange. `qsServerId` and `qsToken` are the query
parameters (absent keys are `none`). -/
def wsGate (auth : List (String × String)) (cfgPath reqPath : String)
    (qsServerId qsToken : Option String) : GateResult :=
  if reqPath ≠ cfgPath then GateResult.notFound
  else
    let server_id := pstrip (qsServerId.getD "")
    let token := pstrip (qsToken.getD "")
    if server_id = "" ∨ token = "" then GateResult.missingCreds
    else
      match pget auth server_id with
      | none => GateResult.invalidToken
      | some expected =>
        if expected ≠ token then GateResult.invalidToken
        else GateResult.accepted server_id token

/-! ### Registration with eviction (`ws_handler` lines 164-193) -/

/-- Side effects of accepting a connection. -/
inductive GwAction where
  /-- `old.websocket.close(code=1000, message=b"replaced")`. -/
  | closeOld (ws : Nat) (reason : String)
  /-- The `CONNECTION_ACK` envelope sent to the new transport. -/
  | sendAck (toWs : Nat) (ack : OutEnvelope)

/-- After the gate passes: close any existing connection for the same
`server_id`, overwrite the registry slot with the new connection, and send
`CONNECTION_ACK`. The evicted connection's pending table is not touched. -/
def wsHandlerAccept (reg : Registry) (server_id : String) (ws : Nat) (now : Nat)
    (ackId : String) : Registry × List GwAction :=
  let closeActs : List GwAction :=
    match get_connection reg server_id with
    | some old => [GwAction.closeOld old.websocket "replaced"]
    | none => []
  let conn : ServerConnection :=
    { server_id := server_id, websocket := ws, last_seen_ms := now }
  let reg1 := set_connection reg server_id (some conn)
  (reg1, closeActs ++ [GwAction.sendAck ws
    { type := "CONNECTION_ACK", id := ackId, timestamp := now,
      payload := Json.obj [("serverId", Json.str server_id)] }])

/-! ### Disconnect cleanup (`ws_handler` finally block, lines 215-245) -/

/-- The registry part of the `finally` block: the slot is removed only when
it still holds the very websocket whose read loop is terminating. -/
def disconnectCleanup (reg : Registry) (server_id : String) (ws : Nat) : Registry :=
  match get_connection reg server_id with
  | some current =>
    if current.websocket = ws then set_connection reg server_id none else reg
  | none => reg

/-- The whole `finally` block as observed by the torn-down connection: the
registry is cleaned with the stale guard, and the connection's pending
futures are returned exactly as the block leaves them — the source touches
only the registry there, never `conn.pending_by_reply_to`. -/
def wsHandlerFinally (reg : Registry) (conn : ServerConnection) :
    Registry × ServerConnection :=
  (disconnectCleanup reg conn.server_id conn.websocket, conn)

/-! ### Request-issuing calls (`api.py`) -/

/-- The `RuntimeError("minecraft server not connected: ...")` raised by every
request call when no connection exists: it reports the target identity and
the currently connected identity set. -/
inductive ApiErr where
  | notConnected (server_id : String) (connected : List String)

/-- The issue phase shared by all five calls in `api.py`: look up the
connection (failing fast with `not connected` and the connected-id list),
create a fresh pending future under `request_id`, and send the request
envelope. Returns the updated registry and the envelope put on the wire. -/
def issueRequest (reg : Registry) (server_id : String) (reqType : String)
    (payload : Json) (request_id : String) (now : Nat) :
    Registry × Except ApiErr OutEnvelope :=
  match get_connection reg server_id with
  | none => (reg, Except.error (ApiErr.notConnected server_id (list_server_ids reg)))
  | some conn =>
    let conn1 : ServerConnection :=
      { conn with pending_by_reply_to := pinsert conn.pending_by_reply_to request_id .pending }
    let msg : OutEnvelope :=
      { type := reqType, id := request_id, timestamp := now, payload := payload }
    (set_connection reg server_id (some conn1), Except.ok msg)

/-- `send_bind_confirm(server_id, platform, code, account_id)`, issue phase. -/
def send_bind_confirm (reg : Registry) (server_id platform code account_id : String)
    (request_id : String) (now : Nat) : Registry × Except ApiErr OutEnvelope :=
  issueRequest reg server_id "BIND_CONFIRM_REQUEST"
    (Json.obj [("platform", Json.str platform), ("code", Json.str code),
      ("accountId", Json.str account_id)])
    request_id now

/-- `query_bindings(server_id, player_uuid, platform=None)`, issue phase.
The `platform` field is added to the payload only when truthy. -/
def query_bindings (reg : Registry) (server_id player_uuid : String)
    (platform : Option String) (request_id : String) (now : Nat) :
    Registry × Except ApiErr OutEnvelope :=
  let base := [("playerUuid", Json.str player_uuid)]
  let fields := match platform with
    | some p => if p = "" then base else base ++ [("platform", Json.str p)]
    | none => base
  issueRequest reg server_id "BINDING_QUERY_REQUEST" (Json.obj fields) request_id now

/-- `query_lands(server_id, player_uuid)`, issue phase. -/
def query_lands (reg : Registry) (server_id player_uuid : String)
    (request_id : String) (now : Nat) : Registry × Except ApiErr OutEnvelope :=
  issueRequest reg server_id "LANDS_QUERY_REQUEST"
    (Json.obj [("playerUuid", Json.str player_uuid)]) request_id now

/-- `query_playtime(server_id, player_uuid)`, issue phase. -/
def query_playtime (reg : Registry) (server_id player_uuid : String)
    (request_id : String) (now : Nat) : Registry × Except ApiErr OutEnvelope :=
  issueRequest reg server_id "PLAYTIME_QUERY_REQUEST"
    (Json.obj [("playerUuid", Json.str player_uuid)]) request_id now

/-- `query_player_by_external_account(server_id, platform, account_id)`,
issue phase. -/
def query_player_by_external_account (reg : Registry) (server_id platform account_id : String)
    (request_id : String) (now : Nat) : Registry × Except ApiErr OutEnvelope :=
  issueRequest reg server_id "EXTERNAL_ACCOUNT_QUERY_REQUEST"
    (Json.obj [("platform", Json.str platform), ("accountId", Json.str account_id)])
    request_id now

/-! ### Await/cleanup phase of a request (`api.py` `try`/`finally`) -/

/-- How the `await asyncio.wait_for(fut, timeout)` of a request call ends. -/
inductive Outcome where
  /-- A matching reply envelope arrived and was dispatched by `_handle_text`. -/
  | reply (payload : Json)
  /-- The timeout elapsed: `wait_for` cancels the future and raises. -/
  | timeout
  /-- The calling task was cancelled while awaiting. -/
  | cancelled

/-- The whole life of a `BIND_CONFIRM_REQUEST` pending entry on one
connection: the issue phase installs a pending future under `request_id`;
then either the dispatch layer delivers a matching reply (which pops and
fulfills it), or the await ends by timeout/cancellation (the future is
cancelled in place); in every case the `finally` block runs
`conn.pending_by_reply_to.pop(request_id, None)`. -/
def bindConfirmLifecycle (conn0 : ServerConnection) (request_id : String)
    (outcome : Outcome) (now : Nat) : ServerConnection :=
  let conn1 : ServerConnection :=
    { conn0 with pending_by_reply_to := pinsert conn0.pending_by_reply_to request_id .pending }
  let conn2 : ServerConnection :=
    match outcome with
    | .reply payload =>
      match handleText conn1
          (some { type := "BIND_CONFIRM_RESPONSE", replyTo := some request_id,
                  payload := some payload }) now "" with
      | Except.ok (c, _) => c
      | Except.error _ => conn1
    | .timeout =>
      { conn1 with pending_by_reply_to := pinsert conn1.pending_by_reply_to request_id .cancelled }
    | .cancelled =>
      { conn1 with pending_by_reply_to := pinsert conn1.pending_by_reply_to request_id .cancelled }
  { conn2 with pending_by_reply_to := perase conn2.pending_by_reply_to request_id }

/-! ### Outbound client (`websocket_client.py`) -/

/-- The fields of `WebSocketClient` that the reconnection machinery reads. -/
structure ClientState where
  authenticated : Bool
  running : Bool

/-- A parsed inbound message on the client side; `invalidJson` models a
`json.JSONDecodeError` (logged, no state change). -/
inductive CMsg where
  | invalidJson
  | auth_required
  | auth_success
  | auth_failed
  | error_msg (message : String)
  | other (type : String)
deriving DecidableEq

/-- Client-side observable effects. -/
inductive COut where
  /-- `_send_auth`: the credential payload sent on `auth_required`. -/
  | sendAuth
  /-- A registered external handler was invoked for this message type. -/
  | handlerCall (type : String)

/-- `WebSocketClient._handle_message`. `handlers` is the set of registered
message-type keys. -/
def handle_message (c : ClientState) (handlers : List String) (m : CMsg) :
    ClientState × List COut :=
  match m with
  | .invalidJson => (c, [])
  | .auth_required => (c, [COut.sendAuth])
  | .auth_success => ({ c with authenticated := true }, [])
  | .auth_failed => ({ c with authenticated := false, running := false }, [])
  | .error_msg _ => (c, [])
  | .other t => (c, if handlers.contains t then [COut.handlerCall t] else [])

/-- One successful connection inside `_connect_loop`: on open the client is
unauthenticated; the read loop processes the connection's messages; when the
transport closes, `authenticated` is reset. -/
def connectAttempt (c : ClientState) (handlers : List String) (script : List CMsg) :
    ClientState :=
  let c1 : ClientState := { c with authenticated := false }
  let c2 := script.foldl (fun st m => (handle_message st handlers m).1) c1
  { c2 with authenticated := false }

/-- `_connect_loop`, counting connection attempts. Each element of
`scripts` is the message trace of one successful connection until its
transport closes; after an attempt the loop dials again only while
`self.running` is still set and auto-reconnect is enabled. -/
def connect_loop (auto_reconnect : Bool) (handlers : List String) :
    ClientState → List (List CMsg) → Nat
  | _, [] => 0
  | c, script :: rest =>
    if c.running then
      let c1 := connectAttempt c handlers script
      if c1.running ∧ auto_reconnect then
        1 + connect_loop auto_reconnect handlers c1 rest
      else 1
    else 0

/-! ### Broadcast-or-direct send (`send_by_session`, `MinecraftGatewayEvent.send`) -/

/-- A message-chain component; only `Plain` text is extracted. -/
inductive Comp where
  | plain (text : String)
  | other

/-- `"".join(plain texts).strip()`. -/
def extractText (chain : List Comp) : String :=
  pstrip (String.join (chain.filterMap fun c =>
    match c with
    | .plain t => some t
    | .other => none))

/-- `session_id.split(":", 1)` guarded by `":" in session_id`. -/
def splitSessionId (s : String) : String × Option String :=
  match s.splitOn ":" with
  | [] => (s, none)
  | [x] => (x, none)
  | x :: rest => (x, some (String.intercalate ":" rest))

/-- The `MESSAGE_INCOMING` payload built by both send paths. -/
def messageIncomingPayload (text : String) : Json :=
  Json.obj [("content", Json.str text),
    ("source", Json.obj [("platform", Json.str "astrbot"), ("userName", Json.str "AstrBot")]),
    ("platform", Json.str "astrbot"), ("username", Json.str "AstrBot")]

/-- `MinecraftGatewayPlatformAdapter.send_by_session`: resolves the target
server from the session id, silently returning (`none`: no envelope put on
the wire, no error raised) when the session id is empty, no connection
exists, or the extracted text is empty. -/
def send_by_session (reg : Registry) (session_id : String) (chain : List Comp)
    (freshId : String) (now : Nat) : Option OutEnvelope :=
  if session_id = "" then none
  else
    let parts := splitSessionId session_id
    let server_id := parts.1
    let player_uuid := parts.2
    match get_connection reg server_id with
    | none => none
    | some _ =>
      let text := extractText chain
      if text = "" then none
      else
        let target : Target :=
          match player_uuid with
          | some u => if u = "" then Target.broadcast else Target.player u none
          | none => Target.broadcast
        some { type := "MESSAGE_INCOMING", id := freshId, timestamp := now,
               payload := messageIncomingPayload text, target := some target }

/-- `MinecraftGatewayEvent.send`: checks the extracted text first, then the
connection; in both failure cases it falls back to the platform default send
and puts no envelope on the wire (`none`), raising nothing. -/
def MinecraftGatewayEvent.send (reg : Registry) (server_id : String)
    (player_uuid : Option String) (chain : List Comp) : Option OutEnvelope :=
  let text := extractText chain
  if text = "" then none
  else
    match get_connection reg server_id with
    | none => none
    | some _ =>
      let target : Target :=
        match player_uuid with
        | some u => if u = "" then Target.broadcast else Target.player u none
        | none => Target.broadcast
      some { type := "MESSAGE_INCOMING", id := "0", timestamp := 0,
             payload := messageIncomingPayload text, target := some target }

/-! ### Helper lemmas -/

/-- Whether an `Except` value is a success. -/
def exceptIsOk {ε α : Type} : Except ε α → Bool
  | .ok _ => true
  | .error _ => false

theorem handleText_never_errors (conn : ServerConnection) (data : Option Envelope)
    (now : Nat) (freshId : String) :
    exceptIsOk (handleText conn data now freshId) = true := by
  unfold handleText
  cases data with
  | none => rfl
  | some d =>
    by_cases h1 : d.type = "HEARTBEAT"
    · simp [h1, exceptIsOk]
    · by_cases h2 : d.type = "BIND_CONFIRM_RESPONSE"
      · simp only [h1, h2, if_false, if_true, reduceIte]
        cases hr : d.replyTo with
        | none => simp [exceptIsOk]
        | some r =>
          by_cases hre : r = ""
          · simp [hre, exceptIsOk]
          · simp only [hre, reduceIte]
            cases hp : pget ({ conn with last_seen_ms := now } :
                ServerConnection).pending_by_reply_to r with
            | none => simp [exceptIsOk]
            | some fut =>
              by_cases hd : futDone fut = true
              · simp [hd, exceptIsOk]
              · simp [hd, setResult, exceptIsOk]
      · by_cases h3 : d.type = "MESSAGE_FORWARD"
        · simp [h1, h2, h3, exceptIsOk]
        · by_cases h4 : d.type = "BIND_CODE_ISSUED"
          · simp [h1, h2, h3, h4, exceptIsOk]
          · simp [h1, h2, h3, h4, exceptIsOk]

/-! ### Claims -/

/-- Claim C5: an inbound `HEARTBEAT` envelope carrying a correlation id `h1`
produces exactly one `HEARTBEAT_ACK` envelope whose id equals `h1`, and the
only state change is updating the connection's last-seen timestamp — the
pending table is untouched and no registry mutation is involved. -/
theorem heartbeat_ack_roundtrip (conn : ServerConnection) (h1 : String)
    (ts : Option Nat) (pay : Option Json) (rt : Option String) (tg : Option Target)
    (now : Nat) (freshId : String) (hid : h1 ≠ "") :
    handleText conn (some { type := "HEARTBEAT", id := some h1, timestamp := ts,
                            payload := pay, replyTo := rt, target := tg }) now freshId =
      Except.ok ({ conn with last_seen_ms := now },
        [OutAction.sendJson { type := "HEARTBEAT_ACK", id := h1, timestamp := now,
                              payload := Json.obj [] }]) := by
  simp [handleText, strOr, hid]

/-- Claim C5 witness: the round-trip at a concrete connection and id. -/
theorem heartbeat_ack_roundtrip_witness :
    ("h1" : String) ≠ "" ∧
    handleText { server_id := "A", websocket := 1, last_seen_ms := 0 }
        (some { type := "HEARTBEAT", id := some "h1" }) 5 "fresh" =
      Except.ok ({ server_id := "A", websocket := 1, last_seen_ms := 5 },
        [OutAction.sendJson { type := "HEARTBEAT_ACK", id := "h1", timestamp := 5,
                              payload := Json.obj [] }]) :=
  ⟨by decide, heartbeat_ack_roundtrip
    { server_id := "A", websocket := 1, last_seen_ms := 0 } "h1"
    none none none none 5 "fresh" (by decide)⟩

/-- Claim C2 (code-bug evidence): an inbound reply envelope of each of the
four non-bind response types, with `replyTo` matching a pending entry of the
receiving connection, is ignored by `_handle_text`: the pending entry is
neither popped nor fulfilled (only the last-seen timestamp changes), so the
issuing caller can only time out. Only `BIND_CONFIRM_RESPONSE` is
dispatched as a reply. -/
theorem query_responses_ignored :
    (handleText { server_id := "A", websocket := 1, last_seen_ms := 0,
                  pending_by_reply_to := [("q1", FutState.pending)] }
        (some { type := "BINDING_QUERY_RESPONSE", replyTo := some "q1",
                payload := some (Json.obj [("success", Json.bool true)]) }) 5 "fresh" =
      Except.ok ({ server_id := "A", websocket := 1, last_seen_ms := 5,
                   pending_by_reply_to := [("q1", FutState.pending)] }, [])) ∧
    (handleText { server_id := "A", websocket := 1, last_seen_ms := 0,
                  pending_by_reply_to := [("q1", FutState.pending)] }
        (some { type := "LANDS_QUERY_RESPONSE", replyTo := some "q1",
                payload := some (Json.obj [("success", Json.bool true)]) }) 5 "fresh" =
      Except.ok ({ server_id := "A", websocket := 1, last_seen_ms := 5,
                   pending_by_reply_to := [("q1", FutState.pending)] }, [])) ∧
    (handleText { server_id := "A", websocket := 1, last_seen_ms := 0,
                  pending_by_reply_to := [("q1", FutState.pending)] }
        (some { type := "PLAYTIME_QUERY_RESPONSE", replyTo := some "q1",
                payload := some (Json.obj [("success", Json.bool true)]) }) 5 "fresh" =
      Except.ok ({ server_id := "A", websocket := 1, last_seen_ms := 5,
                   pending_by_reply_to := [("q1", FutState.pending)] }, [])) ∧
    (handleText { server_id := "A", websocket := 1, last_seen_ms := 0,
                  pending_by_reply_to := [("q1", FutState.pending)] }
        (some { type := "EXTERNAL_ACCOUNT_QUERY_RESPONSE", replyTo := some "q1",
                payload := some (Json.obj [("success", Json.bool true)]) }) 5 "fresh" =
      Except.ok ({ server_id := "A", websocket := 1, last_seen_ms := 5,
                   pending_by_reply_to := [("q1", FutState.pending)] }, [])) :=
  ⟨rfl, rfl, rfl, rfl⟩

/-- Claim C10: dispatching a `BIND_CONFIRM_RESPONSE` never raises in the
read loop: `_handle_text` always returns successfully, and when the matching
pending future is already done (the caller timed out or was cancelled), the
entry is still popped but `set_result` is not called — a harmless no-op
with no emitted action. -/
theorem reply_after_done_noop (conn : ServerConnection) (data : Option Envelope)
    (now : Nat) (freshId : String) :
    exceptIsOk (handleText conn data now freshId) = true ∧
    (∀ (d : Envelope) (r : String) (fut : FutState),
      data = some d → d.type = "BIND_CONFIRM_RESPONSE" → d.replyTo = some r → r ≠ "" →
      pget conn.pending_by_reply_to r = some fut → futDone fut = true →
      handleText conn data now freshId =
        Except.ok ({ conn with last_seen_ms := now,
                               pending_by_reply_to :=
                                 perase conn.pending_by_reply_to r }, [])) := by
  refine ⟨handleText_never_errors conn data now freshId, ?_⟩
  intro d r fut hdata htype hreply hne hp hdone
  subst hdata
  have hx : d.type ≠ "HEARTBEAT" := by rw [htype]; decide
  simp [handleText, hx, htype, hreply, hne, hp, hdone]

/-- Claim C10 witness: a late reply to an already-cancelled future pops the
entry and changes nothing else. -/
theorem reply_after_done_noop_witness :
    handleText { server_id := "A", websocket := 1, last_seen_ms := 0,
                 pending_by_reply_to := [("r1", FutState.cancelled)] }
        (some { type := "BIND_CONFIRM_RESPONSE", replyTo := some "r1" }) 7 "fresh" =
      Except.ok ({ server_id := "A", websocket := 1, last_seen_ms := 7,
                   pending_by_reply_to := perase [("r1", FutState.cancelled)] "r1" }, []) :=
  (reply_after_done_noop
      { server_id := "A", websocket := 1, last_seen_ms := 0,
        pending_by_reply_to := [("r1", FutState.cancelled)] }
      (some { type := "BIND_CONFIRM_RESPONSE", replyTo := some "r1" }) 7 "fresh").2
    { type := "BIND_CONFIRM_RESPONSE", replyTo := some "r1" } "r1" FutState.cancelled
    rfl rfl rfl (by decide) rfl rfl

/-- Claim C8: whatever the outcome of an issued request (reply received,
timeout, or cancellation of the calling task), after the call completes no
pending entry under its correlation id remains in the connection's table,
and the cleanup is idempotent: repeating the removal finds nothing and
changes nothing. -/
theorem pending_cleanup_exactly_once (conn0 : ServerConnection) (request_id : String)
    (outcome : Outcome) (now : Nat) :
    pget (bindConfirmLifecycle conn0 request_id outcome now).pending_by_reply_to request_id
      = none ∧
    perase (bindConfirmLifecycle conn0 request_id outcome now).pending_by_reply_to request_id
      = (bindConfirmLifecycle conn0 request_id outcome now).pending_by_reply_to :=
  ⟨pget_perase_self _ _, perase_perase _ _⟩

/-- Claim C3: each of the five request-issuing calls, made when no
connection exists for the target `server_id`, fails immediately with a
not-connected error reporting the currently connected identity set, and
returns the registry unchanged — no pending entry is created anywhere. -/
theorem not_connected_fails_fast (reg : Registry)
    (server_id platform code account_id player_uuid account_id2 : String)
    (platformOpt : Option String) (request_id : String) (now : Nat)
    (h : get_connection reg server_id = none) :
    send_bind_confirm reg server_id platform code account_id request_id now
      = (reg, Except.error (ApiErr.notConnected server_id (list_server_ids reg))) ∧
    query_bindings reg server_id player_uuid platformOpt request_id now
      = (reg, Except.error (ApiErr.notConnected server_id (list_server_ids reg))) ∧
    query_lands reg server_id player_uuid request_id now
      = (reg, Except.error (ApiErr.notConnected server_id (list_server_ids reg))) ∧
    query_playtime reg server_id player_uuid request_id now
      = (reg, Except.error (ApiErr.notConnected server_id (list_server_ids reg))) ∧
    query_player_by_external_account reg server_id platform account_id2 request_id now
      = (reg, Except.error (ApiErr.notConnected server_id (list_server_ids reg))) := by
  refine ⟨?_, ?_, ?_, ?_, ?_⟩ <;>
    simp [send_bind_confirm, query_bindings, query_lands, query_playtime,
      query_player_by_external_account, issueRequest, h]

/-- Claim C3 witness: a request for `serverA` with only `B` connected fails
fast, reporting the connected set, with the registry unchanged. -/
theorem not_connected_fails_fast_witness :
    get_connection [("B", { server_id := "B", websocket := 2, last_seen_ms := 0 })] "serverA"
      = none ∧
    send_bind_confirm [("B", { server_id := "B", websocket := 2, last_seen_ms := 0 })]
        "serverA" "qq" "code1" "acct1" "rid1" 0
      = ([("B", { server_id := "B", websocket := 2, last_seen_ms := 0 })],
         Except.error (ApiErr.notConnected "serverA" ["B"])) :=
  ⟨rfl, (not_connected_fails_fast
    [("B", { server_id := "B", websocket := 2, last_seen_ms := 0 })]
    "serverA" "qq" "code1" "acct1" "p" "a2" none "rid1" 0 rfl).1⟩

/-- Claim C6: the disconnect cleanup removes the registry slot only when it
still holds the very connection object whose read loop is terminating; when
that connection was already replaced by a newer one for the same
`server_id`, the cleanup leaves the newer registry entry untouched. -/
theorem stale_disconnect_guard (reg : Registry) (server_id : String) (ws : Nat) :
    (∀ c, get_connection reg server_id = some c → c.websocket ≠ ws →
      disconnectCleanup reg server_id ws = reg) ∧
    (∀ c, get_connection reg server_id = some c → c.websocket = ws →
      get_connection (disconnectCleanup reg server_id ws) server_id = none) := by
  constructor
  · intro c hc hne
    unfold disconnectCleanup
    rw [hc]
    simp [hne]
  · intro c hc heq
    unfold disconnectCleanup
    rw [hc]
    simp only [heq, if_pos rfl, reduceIte]
    exact pget_perase_self reg server_id

/-- Claim C6 witness: after a newer connection (websocket 2) replaces the
old one (websocket 1) for identity `A`, the old connection's late-firing
cleanup leaves the registry untouched. -/
theorem stale_disconnect_guard_witness :
    get_connection (wsHandlerAccept
        [("A", { server_id := "A", websocket := 1, last_seen_ms := 0 })] "A" 2 7 "ack").1 "A"
      = some { server_id := "A", websocket := 2, last_seen_ms := 7 } ∧
    disconnectCleanup (wsHandlerAccept
        [("A", { server_id := "A", websocket := 1, last_seen_ms := 0 })] "A" 2 7 "ack").1 "A" 1
      = (wsHandlerAccept
        [("A", { server_id := "A", websocket := 1, last_seen_ms := 0 })] "A" 2 7 "ack").1 :=
  ⟨rfl, (stale_disconnect_guard (wsHandlerAccept
      [("A", { server_id := "A", websocket := 1, last_seen_ms := 0 })] "A" 2 7 "ack").1
    "A" 1).1 { server_id := "A", websocket := 2, last_seen_ms := 7 } rfl (by decide)⟩

theorem handle_message_keeps_running_false (c : ClientState) (hs : List String) (m : CMsg)
    (h : c.running = false) : (handle_message c hs m).1.running = false := by
  cases m <;> simp [handle_message, h]

theorem foldl_keeps_running_false (hs : List String) (script : List CMsg) (c : ClientState)
    (h : c.running = false) :
    (script.foldl (fun st m => (handle_message st hs m).1) c).running = false := by
  induction script generalizing c with
  | nil => exact h
  | cons m rest ih =>
    exact ih _ (handle_message_keeps_running_false c hs m h)

theorem foldl_auth_failed_running_false (hs : List String) (script : List CMsg)
    (c : ClientState) (h : CMsg.auth_failed ∈ script) :
    (script.foldl (fun st m => (handle_message st hs m).1) c).running = false := by
  induction script generalizing c with
  | nil => cases h
  | cons m rest ih =>
    rcases List.mem_cons.mp h with h1 | h2
    · rw [List.foldl_cons]
      refine foldl_keeps_running_false hs rest _ ?_
      rw [h1.symm]
      simp [handle_message]
    · exact ih _ h2

/-- Claim C7: an explicit `auth_failed` acknowledgment is terminal for the
outbound client: once a connection's message trace contains it, the
reconnection loop makes no further connection attempt, whatever follows and
whatever the auto-reconnect setting. -/
theorem auth_failed_terminal (auto_reconnect : Bool) (handlers : List String)
    (c : ClientState) (script : List CMsg) (rest : List (List CMsg))
    (h : CMsg.auth_failed ∈ script) :
    connect_loop auto_reconnect handlers c (script :: rest) ≤ 1 := by
  unfold connect_loop
  by_cases hr : c.running = true
  · have hfalse : (connectAttempt c handlers script).running = false := by
      unfold connectAttempt
      exact foldl_auth_failed_running_false handlers script _ h
    simp [hr, hfalse]
  · simp [hr]

/-- Claim C7 witness: a first connection that receives `auth_failed` is the
only attempt, even with auto-reconnect enabled and a further script queued. -/
theorem auth_failed_terminal_witness :
    CMsg.auth_failed ∈ [CMsg.auth_required, CMsg.auth_failed] ∧
    connect_loop true ["MESSAGE_FORWARD"] { authenticated := false, running := true }
      [[CMsg.auth_required, CMsg.auth_failed], [CMsg.auth_success]] ≤ 1 :=
  ⟨by decide, auth_failed_terminal true ["MESSAGE_FORWARD"]
    { authenticated := false, running := true }
    [CMsg.auth_required, CMsg.auth_failed] [[CMsg.auth_success]] (by decide)⟩

/-- Claim C9: the broadcast-or-direct send primitives never signal an error
on a missing connection: when no connection exists for the resolved server
id, or the extracted text is empty, `send_by_session` and
`MinecraftGatewayEvent.send` silently produce no envelope. -/
theorem silent_send_no_connection (reg : Registry) (session_id : String)
    (chain chain2 : List Comp) (freshId : String) (now : Nat)
    (server_id2 : String) (player_uuid : Option String) :
    (get_connection reg (splitSessionId session_id).1 = none ∨ extractText chain = "" →
      send_by_session reg session_id chain freshId now = none) ∧
    (get_connection reg server_id2 = none ∨ extractText chain2 = "" →
      MinecraftGatewayEvent.send reg server_id2 player_uuid chain2 = none) := by
  constructor
  · intro h
    unfold send_by_session
    by_cases hs : session_id = ""
    · simp [hs]
    · rcases h with h | h
      · simp [hs, h]
      · cases hg : get_connection reg (splitSessionId session_id).1 <;> simp [hs, hg, h]
  · intro h
    unfold MinecraftGatewayEvent.send
    rcases h with h | h
    · by_cases ht : extractText chain2 = "" <;> simp [ht, h]
    · simp [h]

/-- Claim C9 witness: with an empty registry, both send paths return
silently with no envelope. -/
theorem silent_send_no_connection_witness :
    send_by_session [] "A:uuid1" [Comp.plain "hello"] "fresh" 0 = none ∧
    MinecraftGatewayEvent.send [] "A" none [Comp.plain "hello"] = none :=
  ⟨(silent_send_no_connection [] "A:uuid1" [Comp.plain "hello"] [Comp.plain "hello"]
      "fresh" 0 "A" none).1 (Or.inl rfl),
   (silent_send_no_connection [] "A:uuid1" [Comp.plain "hello"] [Comp.plain "hello"]
      "fresh" 0 "A" none).2 (Or.inl rfl)⟩

/-- Claim C4: a new inbound transport attempt is accepted only on an exact
identity-and-token whitelist match: acceptance implies the path matched,
the stripped credentials are non-empty, and the whitelist maps the
presented identity to exactly the presented token; whenever the whitelist
lookup of the presented identity differs from the presented token, the gate
refuses before any envelope exchange, so the registration step — which runs
only after acceptance — is never reached. -/
theorem handshake_exact_match (auth : List (String × String)) (cfgPath reqPath : String)
    (qsServerId qsToken : Option String) :
    (∀ sid tok, wsGate auth cfgPath reqPath qsServerId qsToken = GateResult.accepted sid tok →
      reqPath = cfgPath ∧ sid = pstrip (qsServerId.getD "") ∧ tok = pstrip (qsToken.getD "") ∧
      sid ≠ "" ∧ tok ≠ "" ∧ pget auth sid = some tok) ∧
    (pget auth (pstrip (qsServerId.getD "")) ≠ some (pstrip (qsToken.getD "")) →
      ∀ sid tok, wsGate auth cfgPath reqPath qsServerId qsToken ≠ GateResult.accepted sid tok) := by
  have main : ∀ sid tok,
      wsGate auth cfgPath reqPath qsServerId qsToken = GateResult.accepted sid tok →
      reqPath = cfgPath ∧ sid = pstrip (qsServerId.getD "") ∧ tok = pstrip (qsToken.getD "") ∧
      sid ≠ "" ∧ tok ≠ "" ∧ pget auth sid = some tok := by
    intro sid tok hacc
    simp only [wsGate] at hacc
    split at hacc
    next hp => cases hacc
    next hp =>
      split at hacc
      next hcred => cases hacc
      next hcred =>
        split at hacc
        next hpget => cases hacc
        next expected hpget =>
          split at hacc
          next hne => cases hacc
          next hne =>
            injection hacc with h1 h2
            push_neg at hp hcred hne
            subst h1
            subst h2
            exact ⟨hp, rfl, rfl, hcred.1, hcred.2, by rw [hpget, hne]⟩
  refine ⟨main, ?_⟩
  intro hmismatch sid tok hacc
  obtain ⟨_, hsid, htok, _, _, hpget⟩ := main sid tok hacc
  rw [hsid, htok] at hpget
  exact hmismatch hpget

/-- Claim C4 witness: with whitelist mapping `srv` to `tok1`, a connection
attempt presenting `srv` with the wrong token `bad` is refused. -/
theorem handshake_exact_match_witness :
    pget [("srv", "tok1")] (pstrip ((some "srv" : Option String).getD ""))
      ≠ some (pstrip ((some "bad" : Option String).getD "")) ∧
    wsGate [("srv", "tok1")] "/mc" "/mc" (some "srv") (some "bad")
      ≠ GateResult.accepted "srv" "bad" :=
  ⟨by decide,
   (handshake_exact_match [("srv", "tok1")] "/mc" "/mc" (some "srv") (some "bad")).2
     (by decide) "srv" "bad"⟩

/-- Claim C1 counterexample: tearing down a connection that still has a
pending request does not resolve that request: after the `finally` block of
`ws_handler` runs, the registry slot is cleared, yet the request's future is
still `pending` — it has not been completed with any connection-lost (or
other) outcome, and the caller is left to reach its timeout. -/
theorem teardown_pending_unresolved_cex :
    pget (wsHandlerFinally [("A", { server_id := "A", websocket := 1, last_seen_ms := 0, pending_by_reply_to := [("r1", FutState.pending)] })] { server_id := "A", websocket := 1, last_seen_ms := 0, pending_by_reply_to := [("r1", FutState.pending)] }).2.pending_by_reply_to "r1"
      = some FutState.pending ∧
    futDone FutState.pending = false ∧
    get_connection (wsHandlerFinally [("A", { server_id := "A", websocket := 1, last_seen_ms := 0, pending_by_reply_to := [("r1", FutState.pending)] })] { server_id := "A", websocket := 1, last_seen_ms := 0, pending_by_reply_to := [("r1", FutState.pending)] }).1 "A"
      = none :=
  ⟨rfl, rfl, rfl⟩

/-- Claim C1 (amended): destroying a connection does not resolve its
still-pending requests — the teardown path leaves the connection's pending
table exactly as it was, clearing only the registry slot; each still-pending
caller instead reaches its own timeout, whose caller-side cleanup removes
the entry from the table. -/
theorem teardown_leaves_pending_to_timeout (reg : Registry) (conn : ServerConnection)
    (c0 : ServerConnection) (request_id : String) (now : Nat) :
    (wsHandlerFinally reg conn).2.pending_by_reply_to = conn.pending_by_reply_to ∧
    pget (bindConfirmLifecycle c0 request_id Outcome.timeout now).pending_by_reply_to
      request_id = none :=
  ⟨rfl, pget_perase_self _ _⟩

end MCGateway
